import Mathlib

/-!
Shallow embedding of the Doc-AI-Assistant RAG scripts
(`scripts/langchain_rag.py` and `scripts/setup_vectorstore.py`).

External services are modelled as oracle arguments:
* the Pinecone retriever is an oracle `Nat → Except String (List Doc)`
  indexed by invocation number, because `ask_question` invokes
  `self.retriever` twice per question (once directly at line 183, once
  inside the LCEL RAG chain built at lines 156-165);
* the chat model together with the prompt template and the string output
  parser is an oracle `PromptInput → Except String String`, where
  `PromptInput` carries exactly the three values the `RunnableParallel`
  feeds into the prompt (`context`, `question`, `chat_history`).
Python exceptions become the `Except.error` branch; a response dict is an
ordered key/value list, which keeps the keys actually emitted observable.
-/

namespace DocAI

/-- A chat message stored in `ConversationBufferMemory.chat_memory.messages`
(`add_user_message` appends a human message, `add_ai_message` an AI one). -/
inductive ChatMessage where
  | human (content : String)
  | ai (content : String)
deriving Repr, DecidableEq

def ChatMessage.content : ChatMessage → String
  | .human c => c
  | .ai c => c

/-- A retrieved LangChain document: `page_content` plus the metadata keys
`ask_question` and `format_docs` read. An absent metadata key is `none`,
matching Python's `metadata.get(key, default)`. -/
structure Doc where
  page_content : String
  doc_name : Option String
  page_number : Option Nat
  doc_url : Option String
deriving Repr, DecidableEq

/-- One citation entry `{"title": ..., "url": ...}`. -/
structure Reference where
  title : String
  url : String
deriving Repr, DecidableEq

/-- A value inside a response dict: a string or a citation list. -/
inductive RespValue where
  | s (v : String)
  | refs (v : List Reference)
deriving Repr, DecidableEq

/-- A JSON-object response, as the ordered key/value list the Python dict
literal writes. -/
abbrev Response := List (String × RespValue)

/-- Rendering of one retrieved document inside `format_docs`
(langchain_rag.py lines 145-151). -/
def format_doc (d : Doc) : String :=
  "[Document]: " ++ d.doc_name.getD "Unknown Document" ++ "\n[Page]: " ++
    (match d.page_number with
      | some p => toString p
      | none => "Unknown Page") ++
    "\n[URL]: " ++ d.doc_url.getD "" ++ "\n[Content]: " ++ d.page_content

/-- Context formatting, `format_docs` (langchain_rag.py lines 142-153):
blocks joined by the separator `\n\n---\n\n`. -/
def format_docs (docs : List Doc) : String :=
  String.intercalate "\n\n---\n\n" (docs.map format_doc)

/-- The static `document_titles` table (langchain_rag.py lines 201-206). -/
def document_titles : List (String × String) :=
  [("troubleshoot-azure-virtual-machines-windows",
      "Azure Virtual Machine Troubleshooting Guide"),
   ("windows-server-identity", "Windows Server Identity & Authentication"),
   ("security-operations", "Microsoft Security Operations Guide"),
   ("troubleshoot-microsoft-365-admintoc", "Microsoft 365 Administration Guide")]

/-- The citation-assembly loop of `ask_question` (lines 208-222): walk the
docs keeping a `seen_urls` set; a doc contributes an entry only when its
`doc_url` is non-empty (Python truthiness of `url`) and not seen yet; the
title is `document_titles.get(doc_name, "Microsoft Technical Documentation")`. -/
def buildReferences : List Doc → List String → List Reference
  | [], _ => []
  | d :: rest, seen =>
    let url := d.doc_url.getD ""
    let doc_name := d.doc_name.getD "Unknown Document"
    if url ≠ "" ∧ url ∉ seen then
      ⟨(List.lookup doc_name document_titles).getD "Microsoft Technical Documentation",
        url⟩ :: buildReferences rest (url :: seen)
    else
      buildReferences rest seen

/-- The three inputs assembled by the `RunnableParallel` of the RAG chain
(lines 156-161) and consumed by the prompt template / chat model. -/
structure PromptInput where
  context : String
  question : String
  chat_history : List ChatMessage
deriving DecidableEq

/-- The dict returned from the `except` branch of `ask_question`
(lines 235-240). -/
def errorResponse (question msg : String) : Response :=
  [("question", .s question),
   ("answer", .s ("Error processing question: " ++ msg)),
   ("sources", .refs []),
   ("confidence", .s "0%")]

/-- The dict returned when retrieval is empty (lines 186-191). -/
def emptyRetrievalResponse (question : String) : Response :=
  [("question", .s question),
   ("answer", .s "No relevant documentation found"),
   ("sources", .refs []),
   ("confidence", .s "0%")]

/-- Invocation of `self.rag_chain` (chain built at lines 156-165): the
second retriever invocation feeds `format_docs`, and the chat-model oracle
sees the context, the question and the memory messages captured by the
`chat_history` lambda. -/
def rag_chain_invoke (retrieved : Except String (List Doc))
    (llm : PromptInput → Except String String)
    (chat_history : List ChatMessage) (question : String) :
    Except String String :=
  match retrieved with
  | .error e => .error e
  | .ok docs => llm ⟨format_docs docs, question, chat_history⟩

/-- The body of `LangChainRAGSystem.ask_question` (lines 169-240). Returns the response
dict together with the memory messages after the call; `retrieve n` is the
result of the n-th retriever invocation of this call (`n = 0` the direct
`self.retriever.invoke(question)` at line 183, `n = 1` the one inside the
RAG chain). Every exception of the body is caught (lines 233-240). -/
def ask_question (retrieve : Nat → Except String (List Doc))
    (llm : PromptInput → Except String String)
    (memory : List ChatMessage) (question : String) :
    Response × List ChatMessage :=
  match retrieve 0 with
  | .error e => (errorResponse question e, memory)
  | .ok docs =>
    if docs.isEmpty then
      (emptyRetrievalResponse question, memory)
    else
      match rag_chain_invoke (retrieve 1) llm memory question with
      | .error e => (errorResponse question e, memory)
      | .ok answer =>
        ([("question", .s question), ("answer", .s answer),
          ("references", .refs (buildReferences (docs.take 3) []))],
         memory ++ [ChatMessage.human question, ChatMessage.ai answer])

/-- History pairing of `get_conversation_history` (lines 242-254): pairs
consecutive messages `(messages[i], messages[i+1])` for even `i`, dropping
a trailing unpaired message. -/
def get_conversation_history : List ChatMessage → List (String × String)
  | m1 :: m2 :: rest => (m1.content, m2.content) :: get_conversation_history rest
  | _ => []

/-- Deduplicate a list of (url, doc_name) pairs by url, keeping the first
occurrence of each url, given an initial set of already-seen urls. -/
def dedupByUrl : List (String × String) → List String → List (String × String)
  | [], _ => []
  | p :: rest, seen =>
    if p.1 ∈ seen then dedupByUrl rest seen
    else p :: dedupByUrl rest (p.1 :: seen)

/-- Claim-side description of the citation list for comparison with the
code's loop: take the top-3 retrieved chunks in order, keep those with a
non-empty url, deduplicate by url preserving first-seen order, then title
each via the static table with the fallback label. -/
def citationSpec (docs : List Doc) : List Reference :=
  (dedupByUrl
      (((docs.take 3).map
          fun d => (d.doc_url.getD "", d.doc_name.getD "Unknown Document")).filter
        fun p => p.1 != "") []).map
    fun p =>
      ⟨(List.lookup p.2 document_titles).getD "Microsoft Technical Documentation", p.1⟩

/-- A concrete retriever oracle returning no documents on every invocation. -/
def r_empty : Nat → Except String (List Doc) := fun _ => .ok []

/-- A concrete chat-model oracle with a constant answer. -/
def llm_const : PromptInput → Except String String := fun _ => .ok "ignored"

/-- A concrete chat-model oracle echoing the context it was handed. -/
def llm_echo : PromptInput → Except String String := fun p => .ok p.context

/-- A retrieved chunk of a document absent from `document_titles`. -/
def doc_unknown : Doc :=
  ⟨"some content", some "some-unknown-doc", some 1, some "https://example.com/u"⟩

/-- A retrieved chunk of the security-operations document. -/
def doc_sec : Doc :=
  ⟨"sec content", some "security-operations", some 2,
    some "https://learn.microsoft.com/security/operations"⟩

/-- A second retrieved chunk of the security-operations document sharing its
url with `doc_sec`. -/
def doc_sec2 : Doc :=
  ⟨"sec content 2", some "security-operations", some 3,
    some "https://learn.microsoft.com/security/operations"⟩

/-- A retrieved chunk with no configured url (`doc_url` empty). -/
def doc_nourl : Doc := ⟨"bare content", some "extra-doc", some 1, some ""⟩

/-- A concrete retriever oracle returning one unknown-title document. -/
def r_unknown : Nat → Except String (List Doc) := fun _ => .ok [doc_unknown]

/-- A concrete retriever oracle: three documents, two sharing one url. -/
def r_three : Nat → Except String (List Doc) :=
  fun _ => .ok [doc_sec, doc_sec2, doc_unknown]

/-- A concrete retriever oracle returning only documents without urls. -/
def r_nourl : Nat → Except String (List Doc) := fun _ => .ok [doc_nourl]

/-- A concrete retriever oracle whose two invocations differ. -/
def r_two : Nat → Except String (List Doc) :=
  fun n => if n = 0 then .ok [doc_sec] else .ok [doc_unknown]

/-- One question/answer cycle's inputs for a multi-turn run: the question
together with the per-call external oracles. -/
structure Step where
  retrieve : Nat → Except String (List Doc)
  llm : PromptInput → Except String String
  question : String

/-- Sequential `ask_question` calls on one `LangChainRAGSystem` instance:
returns the list of responses in call order and the final memory. -/
def runAll : List Step → List ChatMessage → List Response × List ChatMessage
  | [], mem => ([], mem)
  | s :: rest, mem =>
    let r := ask_question s.retrieve s.llm mem s.question
    let t := runAll rest r.2
    (r.1 :: t.1, t.2)

/-- The answer string a response dict carries. -/
def respAnswer (resp : Response) : String :=
  match List.lookup "answer" resp with
  | some (.s a) => a
  | _ => ""

/-- A response took the success path of `ask_question` exactly when it
carries a "references" key (the short-circuit and error dicts carry
"sources"/"confidence" instead). -/
def isSuccess (resp : Response) : Bool :=
  (List.lookup "references" resp).isSome

/-- A concrete successful question/answer cycle. -/
def step_demo : Step := ⟨fun _ => .ok [doc_sec], llm_const, "q1"⟩

/-- A chunk of the vector index together with its similarity score for the
query at hand. -/
structure ScoredChunk where
  page_content : String
  doc_name : String
  score : Nat
deriving Repr, DecidableEq

/-- Insertion into a descending-by-score list. -/
def insertByScore (c : ScoredChunk) : List ScoredChunk → List ScoredChunk
  | [] => [c]
  | d :: rest =>
    if c.score ≥ d.score then c :: d :: rest else d :: insertByScore c rest

/-- Descending-by-score insertion sort. -/
def sortByScore : List ScoredChunk → List ScoredChunk
  | [] => []
  | c :: rest => insertByScore c (sortByScore rest)

/-- The `self.allowed_docs` allow-list (langchain_rag.py lines 44-49). -/
def allowed_docs : List String :=
  ["troubleshoot-azure-virtual-machines-windows",
   "windows-server-identity",
   "security-operations",
   "troubleshoot-microsoft-365-admintoc"]

/-- The `k` of the retriever's `search_kwargs` (langchain_rag.py line 91). -/
def retriever_k : Nat := 10

/-- Modelled from the spec: the Pinecone similarity search behind
`self.retriever` is not part of this repository. Per the spec the Vector
Index Client's query returns an "ordered sequence of (Chunk, score) by
descending similarity, length ≤ k" and "the filter restricts results to
chunks whose doc_id is a member of the AllowList — this is a hard
constraint". `corpus` carries every indexed chunk with its similarity score
for the current query; the configuration (k = 10 and the allow-list filter
on `doc_name`) is the one `_init_vectorstore` passes (langchain_rag.py
lines 87-94). -/
def retriever_invoke (corpus : List ScoredChunk) : List ScoredChunk :=
  (sortByScore (corpus.filter fun c => decide (c.doc_name ∈ allowed_docs))).take
    retriever_k

/-- A concrete two-chunk corpus, one chunk outside the allow-list. -/
def corpus_demo : List ScoredChunk :=
  [⟨"sec text", "security-operations", 5⟩, ⟨"other text", "not-allowed-doc", 9⟩]

/-- Whether the first list is an initial run of the second
(character-level). -/
def leadsWith : List Char → List Char → Bool
  | [], _ => true
  | _ :: _, [] => false
  | p :: ps, s :: ss => p == s && leadsWith ps ss

/-- Whether `pat` occurs contiguously inside `l`. -/
def occursIn (pat : List Char) : List Char → Bool
  | [] => pat.isEmpty
  | s :: ss => leadsWith pat (s :: ss) || occursIn pat ss

/-- Python's substring test `pat in s`. -/
def containsSub (s pat : String) : Bool := occursIn pat.data s.data

/-- Python's `str.lower()` (the doc names at hand are ASCII, where
`Char.toLower` coincides with Python's lowercasing). -/
def lowerName (s : String) : String := String.mk (s.data.map Char.toLower)

/-- The classifier `DocumentProcessor._classify_doc_type`
(setup_vectorstore.py lines 45-52): lowercase the name, then test the
keywords in source order. -/
def classify_doc_type (doc_name : String) : String :=
  let name := lowerName doc_name
  if containsSub name "troubleshoot" then "Troubleshooting"
  else if containsSub name "identity" then "Authentication"
  else if containsSub name "security" then "Security"
  else if containsSub name "admin" then "Administration"
  else "General"

/-- The ordered keyword rule list the spec describes for doc_type
classification. -/
def doc_type_rules : List (String × String) :=
  [("troubleshoot", "Troubleshooting"), ("identity", "Authentication"),
   ("security", "Security"), ("admin", "Administration")]

/-- Claim-side classifier: first matching rule of the ordered list wins,
default "General". -/
def firstMatchRule (doc_name : String) : String :=
  match doc_type_rules.find? (fun rule => containsSub (lowerName doc_name) rule.1) with
  | some rule => rule.2
  | none => "General"

/-- A page (or a split chunk, which keeps its source page's metadata):
`page_content` plus the loader's 0-based `page` metadata key, `none` when
absent. -/
structure PageDoc where
  page_content : String
  page : Option Nat
deriving Repr, DecidableEq

/-- A chunk after `process_pdf` attached its metadata
(setup_vectorstore.py lines 71-78). -/
structure OutChunk where
  page_content : String
  doc_name : String
  doc_type : String
  doc_url : String
  page_number : Nat
  chunk_id : Nat
deriving Repr, DecidableEq

/-- The static `doc_urls` table (setup_vectorstore.py lines 29-34). -/
def doc_urls : List (String × String) :=
  [("troubleshoot-azure-virtual-machines-windows",
      "https://learn.microsoft.com/azure/virtual-machines/troubleshooting"),
   ("windows-server-identity", "https://learn.microsoft.com/windows-server/identity"),
   ("security-operations", "https://learn.microsoft.com/security/operations"),
   ("troubleshoot-microsoft-365-admintoc",
      "https://learn.microsoft.com/microsoft-365/admin")]

/-- POSIX `os.path.basename`: the run of characters after the last '/'. -/
def baseNameChars (l : List Char) : List Char :=
  l.foldl (fun acc ch => if ch == '/' then [] else acc ++ [ch]) []

/-- Left-to-right removal of every non-overlapping occurrence of `pat`
(Python's `s.replace(pat, "")`), written with a fuel argument so it stays
structurally recursive; fuel `≥ l.length` always suffices because every
step consumes at least one character. -/
def replaceDrop (pat : List Char) : Nat → List Char → List Char
  | _, [] => []
  | 0, l => l
  | fuel + 1, s :: ss =>
    if pat ≠ [] ∧ leadsWith pat (s :: ss) = true then
      replaceDrop pat fuel ((s :: ss).drop pat.length)
    else s :: replaceDrop pat fuel ss

/-- Document id derived from the path:
`os.path.basename(pdf_path).replace(".pdf", "")`
(setup_vectorstore.py line 56). -/
def pdf_doc_name (pdf_path : String) : String :=
  let base := baseNameChars pdf_path.data
  String.mk (replaceDrop ".pdf".data base.length base)

/-- The metadata-attaching loop of `process_pdf` (lines 71-78): the i-th
chunk (0-based, `enumerate` order) gets `doc_name`, the classified
`doc_type`, `doc_url` from the static table with default "", `page_number =
metadata.get('page', 0) + 1` and `chunk_id = i`. -/
def addChunkMeta (doc_name : String) : Nat → List PageDoc → List OutChunk
  | _, [] => []
  | i, c :: rest =>
    ⟨c.page_content, doc_name, classify_doc_type doc_name,
      (List.lookup doc_name doc_urls).getD "", c.page.getD 0 + 1, i⟩ ::
      addChunkMeta doc_name (i + 1) rest

/-- The body of `DocumentProcessor.process_pdf` (setup_vectorstore.py lines
54-79). The external PyPDF loader's output is the `pages` argument; the
`RecursiveCharacterTextSplitter` is the `splitter` oracle (its chunks keep
their source page metadata). -/
def process_pdf (splitter : List PageDoc → List PageDoc) (max_pages : Nat)
    (pdf_path : String) (pages : List PageDoc) : List OutChunk :=
  let pages := if pages.length > max_pages then pages.take max_pages else pages
  addChunkMeta (pdf_doc_name pdf_path) 0 (splitter pages)

/-- What the single-argument entry point prints on stdout. -/
inductive ApiPrinted where
  | usage
  | resp (r : Response)
deriving Repr, DecidableEq

/-- The body of `api_mode` (langchain_rag.py lines 325-354). `argv` is the
full `sys.argv` (script name first); `init` is the outcome of
`LangChainRAGSystem()` (its `_init_vectorstore` re-raises connection
failures, lines 97-99); `ask_question` itself never raises, so the `except`
of `api_mode` catches exactly initialization failures. Returns what is
printed and the returned exit code. -/
def api_mode (argv : List String) (init : Except String Unit)
    (retrieve : Nat → Except String (List Doc))
    (llm : PromptInput → Except String String) : ApiPrinted × Nat :=
  if argv.length ≠ 2 then
    (.usage, 1)
  else
    let question := argv.getD 1 ""
    match init with
    | .error e => (.resp (errorResponse question e), 1)
    | .ok _ => (.resp (ask_question retrieve llm [] question).1, 0)

end DocAI

namespace DocAI

/-- C1 counterexample: on empty retrieval the response's citation list is
emitted under the key "sources" (together with a "confidence" key); there is
no "references" key at all, so the spec shape
{"answer": "No relevant documentation found", "references": []} is not what
the code returns. The answer string and the emptiness of the citation list
do hold. -/
theorem empty_retrieval_no_references_key :
    List.lookup "references" (ask_question r_empty llm_const [] "How?").1 = none ∧
    List.lookup "answer" (ask_question r_empty llm_const [] "How?").1 =
      some (.s "No relevant documentation found") ∧
    List.lookup "sources" (ask_question r_empty llm_const [] "How?").1 =
      some (.refs []) := by
  refine ⟨rfl, rfl, rfl⟩

/-- C1 (amended): whenever retrieval returns zero documents, `ask_question`
returns exactly the fixed dict {"question": q, "answer": "No relevant
documentation found", "sources": [], "confidence": "0%"} — the citation
list is empty but lives under the key "sources", not "references" — the
memory is returned unchanged, and the result does not depend on the chat
model oracle (the Answer Synthesizer is never invoked on this path). -/
theorem ask_question_empty_retrieval
    (retrieve : Nat → Except String (List Doc))
    (llm : PromptInput → Except String String)
    (memory : List ChatMessage) (question : String)
    (h : retrieve 0 = .ok []) :
    ask_question retrieve llm memory question =
      (emptyRetrievalResponse question, memory) := by
  unfold ask_question
  rw [h]
  rfl

/-- C1 witness. -/
theorem ask_question_empty_retrieval_witness :
    r_empty 0 = .ok [] ∧
    ask_question r_empty llm_const [] "q" = (emptyRetrievalResponse "q", []) :=
  ⟨rfl, ask_question_empty_retrieval r_empty llm_const [] "q" rfl⟩

/-- C2: an exception during retrieval (first conjunct) or during chain
invocation / synthesis (second conjunct) is caught: `ask_question` returns
the error dict — which carries the same question, the answer string
"Error processing question: <msg>" and an empty citation list — and the
memory is unchanged. -/
theorem ask_question_exception_handling
    (retrieve : Nat → Except String (List Doc))
    (llm : PromptInput → Except String String)
    (memory : List ChatMessage) (question e : String) :
    (retrieve 0 = .error e →
      ask_question retrieve llm memory question = (errorResponse question e, memory)) ∧
    (∀ docs, retrieve 0 = .ok docs → docs ≠ [] →
      rag_chain_invoke (retrieve 1) llm memory question = .error e →
      ask_question retrieve llm memory question = (errorResponse question e, memory)) ∧
    List.lookup "question" (errorResponse question e) = some (.s question) ∧
    List.lookup "answer" (errorResponse question e) =
      some (.s ("Error processing question: " ++ e)) ∧
    List.lookup "sources" (errorResponse question e) = some (.refs []) := by
  refine ⟨?_, ?_, rfl, rfl, rfl⟩
  · intro h
    unfold ask_question
    rw [h]
  · intro docs h hne hchain
    cases docs with
    | nil => exact absurd rfl hne
    | cons a l =>
      unfold ask_question
      simp only [h, List.isEmpty_cons, Bool.false_eq_true, if_false, hchain]

/-- C2 witness. -/
theorem ask_question_exception_handling_witness :
    (fun _ : Nat => (Except.error "boom" : Except String (List Doc))) 0 =
      .error "boom" ∧
    ask_question (fun _ => .error "boom") llm_const [] "q" =
      (errorResponse "q" "boom", []) :=
  ⟨rfl,
    (ask_question_exception_handling (fun _ => .error "boom") llm_const [] "q" "boom").1 rfl⟩

/-- Shape of `ask_question` on the success path: the returned dict, and the
two messages appended to memory. -/
theorem ask_question_success_eq
    (retrieve : Nat → Except String (List Doc))
    (llm : PromptInput → Except String String)
    (memory : List ChatMessage) (question a : String) (docs : List Doc)
    (h0 : retrieve 0 = .ok docs) (hne : docs ≠ [])
    (hok : rag_chain_invoke (retrieve 1) llm memory question = .ok a) :
    ask_question retrieve llm memory question =
      ([("question", .s question), ("answer", .s a),
        ("references", .refs (buildReferences (docs.take 3) []))],
       memory ++ [ChatMessage.human question, ChatMessage.ai a]) := by
  cases docs with
  | nil => exact absurd rfl hne
  | cons d rest =>
    unfold ask_question
    simp only [h0, List.isEmpty_cons, Bool.false_eq_true, if_false, hok]

/-- The citation loop of the code equals the claim-side pipeline
filter-nonempty-url / dedup-by-url / title-lookup, for any docs and any
initial seen set. -/
theorem buildReferences_eq_dedup :
    ∀ (ds : List Doc) (seen : List String),
      buildReferences ds seen =
        (dedupByUrl
            ((ds.map
                fun d => (d.doc_url.getD "", d.doc_name.getD "Unknown Document")).filter
              fun p => p.1 != "") seen).map
          fun p =>
            ⟨(List.lookup p.2 document_titles).getD "Microsoft Technical Documentation",
              p.1⟩
  | [], seen => rfl
  | d :: rest, seen => by
    simp only [buildReferences, List.map_cons, List.filter_cons]
    by_cases hurl : d.doc_url.getD "" = ""
    · simp only [hurl, bne_self_eq_false, Bool.false_eq_true, if_false, ne_eq,
        not_true_eq_false, false_and]
      exact buildReferences_eq_dedup rest seen
    · by_cases hseen : d.doc_url.getD "" ∈ seen
      · simp only [ne_eq, hurl, not_false_eq_true, hseen, not_true_eq_false,
          and_false, if_false, bne_iff_ne, if_true, dedupByUrl, if_pos hseen]
        exact buildReferences_eq_dedup rest seen
      · simp only [ne_eq, hurl, not_false_eq_true, hseen, not_false_eq_true,
          and_true, if_true, bne_iff_ne, dedupByUrl, if_neg hseen, List.map_cons]
        exact congrArg _ (buildReferences_eq_dedup rest (d.doc_url.getD "" :: seen))

/-- The urls of `dedupByUrl l seen` are pairwise distinct and avoid `seen`. -/
theorem dedupByUrl_fst_nodup :
    ∀ (l : List (String × String)) (seen : List String),
      ((dedupByUrl l seen).map Prod.fst).Nodup ∧
        ∀ u ∈ (dedupByUrl l seen).map Prod.fst, u ∉ seen
  | [], seen => by simp [dedupByUrl]
  | p :: rest, seen => by
    by_cases hseen : p.1 ∈ seen
    · simpa [dedupByUrl, hseen] using dedupByUrl_fst_nodup rest seen
    · have ih := dedupByUrl_fst_nodup rest (p.1 :: seen)
      simp only [dedupByUrl, if_neg hseen, List.map_cons, List.nodup_cons,
        List.mem_cons, forall_eq_or_imp]
      refine ⟨⟨fun hmem => ?_, ih.1⟩, hseen, fun u hu => ?_⟩
      · exact (ih.2 p.1 hmem) (List.mem_cons_self p.1 seen)
      · intro huseen
        exact (ih.2 u hu) (List.mem_cons_of_mem p.1 huseen)

/-- C3 counterexample: for a successfully answered question whose single
retrieved chunk has a doc_id outside the static title table, the assembled
citation entry carries the title "Microsoft Technical Documentation", which
is not the literal "Technical Documentation" the claim states. -/
theorem citation_fallback_title_cex :
    List.lookup "references" (ask_question r_unknown llm_const [] "q").1 =
      some (.refs [⟨"Microsoft Technical Documentation", "https://example.com/u"⟩]) ∧
    "Microsoft Technical Documentation" ≠ "Technical Documentation" :=
  ⟨rfl, by decide⟩

/-- C3 (amended): for every successfully answered question, the citation
list equals the pipeline that takes the top-3 retrieved chunks in retrieval
order, drops chunks with an empty url, deduplicates by url preserving
first-seen order, and titles each entry by static lookup of its doc_id with
fallback "Microsoft Technical Documentation" (not "Technical
Documentation"); the urls of the resulting entries are pairwise distinct, so
chunks sharing one non-empty url yield exactly one entry. -/
theorem citation_assembly
    (retrieve : Nat → Except String (List Doc))
    (llm : PromptInput → Except String String)
    (memory : List ChatMessage) (question a : String) (docs : List Doc)
    (h0 : retrieve 0 = .ok docs) (hne : docs ≠ [])
    (hok : rag_chain_invoke (retrieve 1) llm memory question = .ok a) :
    List.lookup "references" (ask_question retrieve llm memory question).1 =
      some (.refs (citationSpec docs)) ∧
    ((citationSpec docs).map Reference.url).Nodup := by
  constructor
  · rw [ask_question_success_eq retrieve llm memory question a docs h0 hne hok]
    rw [citationSpec, ← buildReferences_eq_dedup]
    rfl
  · rw [citationSpec, List.map_map]
    exact (dedupByUrl_fst_nodup _ []).1

/-- C3 witness. -/
theorem citation_assembly_witness :
    List.lookup "references" (ask_question r_three llm_const [] "q").1 =
      some (.refs (citationSpec [doc_sec, doc_sec2, doc_unknown])) ∧
    ((citationSpec [doc_sec, doc_sec2, doc_unknown]).map Reference.url).Nodup :=
  citation_assembly r_three llm_const [] "q" "ignored"
    [doc_sec, doc_sec2, doc_unknown] rfl (by decide) rfl

/-- Every entry `buildReferences` emits has a non-empty url. -/
theorem buildReferences_url_ne_empty :
    ∀ (ds : List Doc) (seen : List String) (ref : Reference),
      ref ∈ buildReferences ds seen → ref.url ≠ ""
  | [], _, _, h => absurd h (List.not_mem_nil _)
  | d :: rest, seen, ref, h => by
    by_cases hc : d.doc_url.getD "" ≠ "" ∧ d.doc_url.getD "" ∉ seen
    · rw [buildReferences, if_pos hc] at h
      rcases List.mem_cons.mp h with heq | hmem
      · rw [heq]
        exact hc.1
      · exact buildReferences_url_ne_empty rest (d.doc_url.getD "" :: seen) ref hmem
    · rw [buildReferences, if_neg hc] at h
      exact buildReferences_url_ne_empty rest seen ref h

/-- If every doc in the list has an empty url, `buildReferences` emits
nothing. -/
theorem buildReferences_all_empty :
    ∀ (ds : List Doc) (seen : List String),
      (∀ d ∈ ds, d.doc_url.getD "" = "") → buildReferences ds seen = []
  | [], _, _ => rfl
  | d :: rest, seen, h => by
    have hd := h d (List.mem_cons_self d rest)
    rw [buildReferences, if_neg (by simp [hd])]
    exact buildReferences_all_empty rest seen
      fun x hx => h x (List.mem_cons_of_mem d hx)

/-- C9: a retrieved chunk whose `doc_url` is empty or absent contributes no
citation entry: every emitted citation has a non-empty url, and a
successfully answered question whose top-3 retrieved chunks all lack a url
yields an empty references list even though retrieval was non-empty. -/
theorem references_nonempty_urls
    (retrieve : Nat → Except String (List Doc))
    (llm : PromptInput → Except String String)
    (memory : List ChatMessage) (question a : String) (docs : List Doc)
    (h0 : retrieve 0 = .ok docs) (hne : docs ≠ [])
    (hok : rag_chain_invoke (retrieve 1) llm memory question = .ok a) :
    (∀ ref ∈ buildReferences (docs.take 3) [], ref.url ≠ "") ∧
    List.lookup "references" (ask_question retrieve llm memory question).1 =
      some (.refs (buildReferences (docs.take 3) [])) ∧
    ((∀ d ∈ docs.take 3, d.doc_url.getD "" = "") →
      List.lookup "references" (ask_question retrieve llm memory question).1 =
        some (.refs [])) := by
  refine ⟨fun ref hr => buildReferences_url_ne_empty (docs.take 3) [] ref hr, ?_, ?_⟩
  · rw [ask_question_success_eq retrieve llm memory question a docs h0 hne hok]
    rfl
  · intro hall
    rw [ask_question_success_eq retrieve llm memory question a docs h0 hne hok,
      buildReferences_all_empty (docs.take 3) [] hall]
    rfl

/-- C9 witness. -/
theorem references_nonempty_urls_witness :
    (∀ ref ∈ buildReferences ([doc_nourl].take 3) [], ref.url ≠ "") ∧
    List.lookup "references" (ask_question r_nourl llm_const [] "q").1 =
      some (.refs (buildReferences ([doc_nourl].take 3) [])) ∧
    ((∀ d ∈ [doc_nourl].take 3, d.doc_url.getD "" = "") →
      List.lookup "references" (ask_question r_nourl llm_const [] "q").1 =
        some (.refs [])) :=
  references_nonempty_urls r_nourl llm_const [] "q" "ignored" [doc_nourl]
    rfl (by decide) rfl

/-- C10: `ask_question` consumes two retriever invocations on the answered
path — invocation 0 (the direct `self.retriever.invoke`) supplies the docs
for the emptiness check and the citations, while invocation 1 (inside the
RAG chain) supplies the context string handed to the chat model — so when
the two invocations return the same result, citations and synthesis context
are derived from the same documents. -/
theorem ask_question_double_retrieval
    (retrieve : Nat → Except String (List Doc))
    (llm : PromptInput → Except String String)
    (memory : List ChatMessage) (question a : String) (docs0 docs1 : List Doc)
    (h0 : retrieve 0 = .ok docs0) (hne : docs0 ≠ [])
    (h1 : retrieve 1 = .ok docs1)
    (ha : llm ⟨format_docs docs1, question, memory⟩ = .ok a) :
    (ask_question retrieve llm memory question).1 =
      [("question", .s question), ("answer", .s a),
       ("references", .refs (buildReferences (docs0.take 3) []))] ∧
    (retrieve 0 = retrieve 1 → docs0 = docs1) := by
  constructor
  · have hok : rag_chain_invoke (retrieve 1) llm memory question = .ok a := by
      rw [h1]
      exact ha
    rw [ask_question_success_eq retrieve llm memory question a docs0 h0 hne hok]
  · intro hdet
    have : (Except.ok docs0 : Except String (List Doc)) = .ok docs1 := by
      rw [← h0, ← h1]
      exact hdet
    exact Except.ok.inj this

/-- Insertion keeps exactly the inserted element and the old elements. -/
theorem mem_insertByScore (a c : ScoredChunk) :
    ∀ l : List ScoredChunk, a ∈ insertByScore c l → a = c ∨ a ∈ l
  | [] => by
    intro h
    rw [insertByScore] at h
    exact Or.inl (List.mem_singleton.mp h)
  | d :: rest => by
    intro h
    rw [insertByScore] at h
    split at h
    · rcases List.mem_cons.mp h with h1 | h2
      · exact Or.inl h1
      · exact Or.inr h2
    · rcases List.mem_cons.mp h with h1 | h2
      · exact Or.inr (h1 ▸ List.mem_cons_self d rest)
      · rcases mem_insertByScore a c rest h2 with h3 | h4
        · exact Or.inl h3
        · exact Or.inr (List.mem_cons_of_mem d h4)

/-- Sorting keeps only elements of the input. -/
theorem mem_sortByScore (a : ScoredChunk) :
    ∀ l : List ScoredChunk, a ∈ sortByScore l → a ∈ l
  | [] => fun h => h
  | c :: rest => fun h => by
    rw [sortByScore] at h
    rcases mem_insertByScore a c (sortByScore rest) h with h1 | h2
    · exact h1 ▸ List.mem_cons_self c rest
    · exact List.mem_cons_of_mem c (mem_sortByScore a rest h2)

/-- C4: with the configured retriever (allow-list filter on `doc_name`,
k = 10), every returned chunk's doc_id is in the allow-list, a chunk whose
doc_id is outside the allow-list never appears regardless of its score, and
at most k chunks are returned. -/
theorem retriever_filter_enforcement (corpus : List ScoredChunk) :
    (∀ c ∈ retriever_invoke corpus, c.doc_name ∈ allowed_docs) ∧
    (∀ c : ScoredChunk, c.doc_name ∉ allowed_docs → c ∉ retriever_invoke corpus) ∧
    (retriever_invoke corpus).length ≤ retriever_k := by
  have hmem : ∀ c ∈ retriever_invoke corpus, c.doc_name ∈ allowed_docs := by
    intro c hc
    have h1 : c ∈ sortByScore
        (corpus.filter fun c => decide (c.doc_name ∈ allowed_docs)) :=
      List.take_subset _ _ hc
    have h2 := mem_sortByScore c _ h1
    exact of_decide_eq_true (List.mem_filter.mp h2).2
  refine ⟨hmem, fun c hout hc => hout (hmem c hc), ?_⟩
  rw [retriever_invoke, List.length_take]
  exact min_le_left _ _

/-- C4 witness. -/
theorem retriever_filter_enforcement_witness :
    (⟨"sec text", "security-operations", 5⟩ : ScoredChunk).doc_name ∈ allowed_docs ∧
    (retriever_invoke corpus_demo).length ≤ retriever_k :=
  ⟨(retriever_filter_enforcement corpus_demo).1
      ⟨"sec text", "security-operations", 5⟩ (by decide),
    (retriever_filter_enforcement corpus_demo).2.2⟩

/-- C6: the classifier agrees everywhere with the ordered first-match rule
list (troubleshoot, identity, security, admin; default "General"), and in
particular a name containing both "troubleshoot" and "admin" is classified
"Troubleshooting". -/
theorem classify_first_match :
    (∀ n : String, classify_doc_type n = firstMatchRule n) ∧
    (∀ n : String, containsSub (lowerName n) "troubleshoot" = true →
      containsSub (lowerName n) "admin" = true →
      classify_doc_type n = "Troubleshooting") := by
  constructor
  · intro n
    unfold classify_doc_type firstMatchRule doc_type_rules
    cases h1 : containsSub (lowerName n) "troubleshoot" <;>
      cases h2 : containsSub (lowerName n) "identity" <;>
        cases h3 : containsSub (lowerName n) "security" <;>
          cases h4 : containsSub (lowerName n) "admin" <;>
            simp [List.find?, h1, h2, h3, h4]
  · intro n h1 _
    unfold classify_doc_type
    simp [h1]

/-- C6 witness. -/
theorem classify_first_match_witness :
    classify_doc_type "troubleshoot-microsoft-365-admintoc" = "Troubleshooting" :=
  classify_first_match.2 "troubleshoot-microsoft-365-admintoc" (by rfl) (by rfl)

/-- Element j of the metadata-attaching loop started at i0: the j-th split
chunk tagged with `chunk_id = i0 + j` and the per-document constants. -/
theorem addChunkMeta_get? (doc_name : String) :
    ∀ (cs : List PageDoc) (i0 j : Nat),
      (addChunkMeta doc_name i0 cs).get? j =
        (cs.get? j).map fun c =>
          ⟨c.page_content, doc_name, classify_doc_type doc_name,
            (List.lookup doc_name doc_urls).getD "", c.page.getD 0 + 1, i0 + j⟩
  | [], i0, j => by simp [addChunkMeta]
  | c :: rest, i0, 0 => by simp [addChunkMeta]
  | c :: rest, i0, j + 1 => by
    rw [addChunkMeta, List.get?_cons_succ, List.get?_cons_succ,
      addChunkMeta_get? doc_name rest (i0 + 1) j]
    simp only [Nat.succ_add, Nat.add_succ]

/-- C7: every chunk `process_pdf` emits has all metadata fields set, with
`chunk_id` equal to its 0-based position in emission order (hence unique
and contiguous from 0), `page_number = page + 1 ≥ 1`, the derived document
name, the classified `doc_type`, and `doc_url` from the static table with
fallback "". -/
theorem process_pdf_metadata (splitter : List PageDoc → List PageDoc)
    (max_pages : Nat) (pdf_path : String) (pages : List PageDoc) :
    ∀ (j : Nat) (c : OutChunk),
      (process_pdf splitter max_pages pdf_path pages).get? j = some c →
      c.chunk_id = j ∧ 1 ≤ c.page_number ∧
      c.doc_name = pdf_doc_name pdf_path ∧
      c.doc_type = classify_doc_type (pdf_doc_name pdf_path) ∧
      c.doc_url = (List.lookup (pdf_doc_name pdf_path) doc_urls).getD "" := by
  intro j c hc
  rw [process_pdf, addChunkMeta_get?] at hc
  rcases Option.map_eq_some'.mp hc with ⟨p, _, hp⟩
  rw [← hp]
  exact ⟨Nat.zero_add j, Nat.succ_le_succ (Nat.zero_le _), rfl, rfl, rfl⟩

/-- C7 witness. -/
theorem process_pdf_metadata_witness :
    (⟨"p2", "security-operations", "Security",
        "https://learn.microsoft.com/security/operations", 2, 1⟩ : OutChunk).chunk_id = 1 ∧
    1 ≤ (⟨"p2", "security-operations", "Security",
        "https://learn.microsoft.com/security/operations", 2, 1⟩ : OutChunk).page_number ∧
    (⟨"p2", "security-operations", "Security",
        "https://learn.microsoft.com/security/operations", 2, 1⟩ : OutChunk).doc_name =
      pdf_doc_name "data/demo_docs/security-operations.pdf" ∧
    (⟨"p2", "security-operations", "Security",
        "https://learn.microsoft.com/security/operations", 2, 1⟩ : OutChunk).doc_type =
      classify_doc_type (pdf_doc_name "data/demo_docs/security-operations.pdf") ∧
    (⟨"p2", "security-operations", "Security",
        "https://learn.microsoft.com/security/operations", 2, 1⟩ : OutChunk).doc_url =
      (List.lookup (pdf_doc_name "data/demo_docs/security-operations.pdf")
          doc_urls).getD "" :=
  process_pdf_metadata id 50 "data/demo_docs/security-operations.pdf"
    [⟨"p1", some 0⟩, ⟨"p2", some 1⟩] 1
    ⟨"p2", "security-operations", "Security",
      "https://learn.microsoft.com/security/operations", 2, 1⟩ (by rfl)

/-- C8 counterexample: when system initialization raises (for example the
vector-store connection failure, which `_init_vectorstore` re-raises),
`api_mode` prints the error dict but returns exit code 1, not 0 — so an
internal failure can produce a non-zero process exit. -/
theorem api_mode_init_failure_exit_cex :
    api_mode ["langchain_rag.py", "q"] (.error "Failed to connect") r_empty llm_const =
      (.resp (errorResponse "q" "Failed to connect"), 1) ∧ (1 : Nat) ≠ 0 :=
  ⟨rfl, by decide⟩

/-- C8 (amended): with a well-formed argument list, `api_mode` exits 0 on
success; a failure while processing the query (already converted in-band by
`ask_question`, whose error dict carries the description in the answer
field) also exits 0; but an initialization failure prints the error dict
and exits 1. -/
theorem api_mode_exit_codes (q e : String)
    (retrieve : Nat → Except String (List Doc))
    (llm : PromptInput → Except String String) :
    ((api_mode ["langchain_rag.py", q] (.ok ()) retrieve llm).2 = 0) ∧
    (retrieve 0 = .error e →
      api_mode ["langchain_rag.py", q] (.ok ()) retrieve llm =
        (.resp (errorResponse q e), 0)) ∧
    (api_mode ["langchain_rag.py", q] (.error e) retrieve llm =
      (.resp (errorResponse q e), 1)) := by
  refine ⟨rfl, ?_, rfl⟩
  intro h
  show (ApiPrinted.resp (ask_question retrieve llm [] q).1, 0) = _
  unfold ask_question
  rw [h]

/-- C8 witness. -/
theorem api_mode_exit_codes_witness :
    api_mode ["langchain_rag.py", "q"] (.ok ()) (fun _ => .error "boom") llm_const =
      (.resp (errorResponse "q" "boom"), 0) :=
  (api_mode_exit_codes "q" "boom" (fun _ => .error "boom") llm_const).2.1 rfl

/-- Shape of `ask_question` when the first retriever invocation raises. -/
theorem ask_question_retrieval_error_eq
    (retrieve : Nat → Except String (List Doc))
    (llm : PromptInput → Except String String)
    (memory : List ChatMessage) (question e : String)
    (h : retrieve 0 = .error e) :
    ask_question retrieve llm memory question = (errorResponse question e, memory) := by
  unfold ask_question
  rw [h]

/-- Shape of `ask_question` when retrieval returns no documents. -/
theorem ask_question_empty_eq
    (retrieve : Nat → Except String (List Doc))
    (llm : PromptInput → Except String String)
    (memory : List ChatMessage) (question : String)
    (h : retrieve 0 = .ok []) :
    ask_question retrieve llm memory question =
      (emptyRetrievalResponse question, memory) := by
  unfold ask_question
  rw [h]
  rfl

/-- Shape of `ask_question` when the RAG chain raises. -/
theorem ask_question_chain_error_eq
    (retrieve : Nat → Except String (List Doc))
    (llm : PromptInput → Except String String)
    (memory : List ChatMessage) (question e : String) (docs : List Doc)
    (h0 : retrieve 0 = .ok docs) (hne : docs ≠ [])
    (hc : rag_chain_invoke (retrieve 1) llm memory question = .error e) :
    ask_question retrieve llm memory question = (errorResponse question e, memory) := by
  cases docs with
  | nil => exact absurd rfl hne
  | cons d rest =>
    unfold ask_question
    simp only [h0, List.isEmpty_cons, Bool.false_eq_true, if_false, hc]

/-- The error dict carries no "references" key. -/
theorem isSuccess_errorResponse (q e : String) :
    isSuccess (errorResponse q e) = false := rfl

/-- The retrieval-miss dict carries no "references" key. -/
theorem isSuccess_emptyRetrievalResponse (q : String) :
    isSuccess (emptyRetrievalResponse q) = false := rfl

/-- Appending one human/AI message pair to an even-length message list
extends the paired history by exactly that turn. -/
theorem history_append_pair :
    ∀ (mem : List ChatMessage), mem.length % 2 = 0 → ∀ q a : String,
      get_conversation_history (mem ++ [ChatMessage.human q, ChatMessage.ai a]) =
        get_conversation_history mem ++ [(q, a)]
  | [], _, q, a => rfl
  | [m], h, q, a => by simp at h
  | m1 :: m2 :: rest, h, q, a => by
    have h' : rest.length % 2 = 0 := by
      simp only [List.length_cons] at h
      omega
    show (m1.content, m2.content) ::
        get_conversation_history (rest ++ [ChatMessage.human q, ChatMessage.ai a]) =
      ((m1.content, m2.content) :: get_conversation_history rest) ++ [(q, a)]
    rw [List.cons_append]
    exact congrArg _ (history_append_pair rest h' q a)

/-- Invariant of a run of `ask_question` calls: when every returned
response took the success path, the final history is the initial history
extended by the question/answer pairs in call order, the memory length
stays even, and one response is logged per step. -/
theorem runAll_history_invariant :
    ∀ (steps : List Step) (mem : List ChatMessage), mem.length % 2 = 0 →
      (∀ resp ∈ (runAll steps mem).1, isSuccess resp = true) →
      get_conversation_history (runAll steps mem).2 =
        get_conversation_history mem ++
          List.zip (steps.map Step.question) ((runAll steps mem).1.map respAnswer) ∧
      (runAll steps mem).2.length % 2 = 0 ∧
      (runAll steps mem).1.length = steps.length
  | [], mem, hmem, _ => by
    refine ⟨?_, hmem, rfl⟩
    simp [runAll]
  | s :: rest, mem, hmem, hsucc => by
    rcases h0 : s.retrieve 0 with e | docs
    · have hask := ask_question_retrieval_error_eq s.retrieve s.llm mem s.question e h0
      have hrun : runAll (s :: rest) mem =
          (errorResponse s.question e :: (runAll rest mem).1, (runAll rest mem).2) := by
        simp only [runAll, hask]
      have hfs := hsucc (errorResponse s.question e)
        (by rw [hrun]; exact List.mem_cons_self _ _)
      rw [isSuccess_errorResponse] at hfs
      exact absurd hfs (by decide)
    · cases docs with
      | nil =>
        have hask := ask_question_empty_eq s.retrieve s.llm mem s.question h0
        have hrun : runAll (s :: rest) mem =
            (emptyRetrievalResponse s.question :: (runAll rest mem).1,
              (runAll rest mem).2) := by
          simp only [runAll, hask]
        have hfs := hsucc (emptyRetrievalResponse s.question)
          (by rw [hrun]; exact List.mem_cons_self _ _)
        rw [isSuccess_emptyRetrievalResponse] at hfs
        exact absurd hfs (by decide)
      | cons d ds =>
        rcases hc : rag_chain_invoke (s.retrieve 1) s.llm mem s.question with e | a
        · have hask := ask_question_chain_error_eq s.retrieve s.llm mem s.question e
            (d :: ds) h0 (List.cons_ne_nil d ds) hc
          have hrun : runAll (s :: rest) mem =
              (errorResponse s.question e :: (runAll rest mem).1, (runAll rest mem).2) := by
            simp only [runAll, hask]
          have hfs := hsucc (errorResponse s.question e)
            (by rw [hrun]; exact List.mem_cons_self _ _)
          rw [isSuccess_errorResponse] at hfs
          exact absurd hfs (by decide)
        · have hask := ask_question_success_eq s.retrieve s.llm mem s.question a
            (d :: ds) h0 (List.cons_ne_nil d ds) hc
          have hrun : runAll (s :: rest) mem =
              ([("question", RespValue.s s.question), ("answer", RespValue.s a),
                ("references", RespValue.refs (buildReferences ((d :: ds).take 3) []))] ::
                  (runAll rest
                    (mem ++ [ChatMessage.human s.question, ChatMessage.ai a])).1,
                (runAll rest
                  (mem ++ [ChatMessage.human s.question, ChatMessage.ai a])).2) := by
            simp only [runAll, hask]
          have hmem' :
              (mem ++ [ChatMessage.human s.question, ChatMessage.ai a]).length % 2 = 0 := by
            simp only [List.length_append, List.length_cons, List.length_nil]
            omega
          have hsucc' : ∀ r ∈ (runAll rest
              (mem ++ [ChatMessage.human s.question, ChatMessage.ai a])).1,
              isSuccess r = true := by
            intro r hr
            exact hsucc r (by rw [hrun]; exact List.mem_cons_of_mem _ hr)
          have ih := runAll_history_invariant rest
            (mem ++ [ChatMessage.human s.question, ChatMessage.ai a]) hmem' hsucc'
          rw [hrun]
          refine ⟨?_, ih.2.1, by simp [ih.2.2]⟩
          simp only [List.map_cons, List.zip_cons_cons]
          have hra : respAnswer
              [("question", RespValue.s s.question), ("answer", RespValue.s a),
               ("references", RespValue.refs (buildReferences ((d :: ds).take 3) []))] = a := rfl
          rw [hra, ih.1, history_append_pair mem hmem s.question a, List.append_assoc]
          rfl

/-- C5: after N question/answer cycles that all took the success path on
one instance, the conversation history has exactly N turns, in call order,
each turn's question being the corresponding input question and each
turn's answer the answer its response carried. -/
theorem conversation_history_ordering (steps : List Step)
    (hsucc : ∀ resp ∈ (runAll steps []).1, isSuccess resp = true) :
    get_conversation_history (runAll steps []).2 =
      List.zip (steps.map Step.question) ((runAll steps []).1.map respAnswer) ∧
    (get_conversation_history (runAll steps []).2).length = steps.length := by
  have h := runAll_history_invariant steps [] rfl hsucc
  have h1 := h.1
  rw [show get_conversation_history ([] : List ChatMessage) = [] from rfl,
    List.nil_append] at h1
  refine ⟨h1, ?_⟩
  rw [h1, List.length_zip, List.length_map, List.length_map, h.2.2, Nat.min_self]

/-- C5 witness. -/
theorem conversation_history_ordering_witness :
    get_conversation_history (runAll [step_demo] []).2 =
      List.zip ([step_demo].map Step.question)
        ((runAll [step_demo] []).1.map respAnswer) ∧
    (get_conversation_history (runAll [step_demo] []).2).length = 1 :=
  conversation_history_ordering [step_demo] (by decide)

/-- C10 witness: a retriever whose two invocations differ, probed with a
context-echoing chat model. -/
theorem ask_question_double_retrieval_witness :
    (ask_question r_two llm_echo [] "q").1 =
      [("question", .s "q"), ("answer", .s (format_docs [doc_unknown])),
       ("references", .refs (buildReferences ([doc_sec].take 3) []))] ∧
    (r_two 0 = r_two 1 → [doc_sec] = [doc_unknown]) :=
  ask_question_double_retrieval r_two llm_echo [] "q"
    (format_docs [doc_unknown]) [doc_sec] [doc_unknown] rfl (by decide) rfl rfl

end DocAI
